import Mathlib

/-!
Verification of the Syncthing C bindings (`c_bindings.go` / `c_bindings.h`).

The bindings are straight-line glue code orchestrating external collaborators
(the `locations`, `fs`, `logger` and `syncthing` libraries).  We embed them as
pure Lean functions over an explicit process state (`LibState`) together with
an oracle (`World`) that fixes the outcome of every external call
(working-directory lookup, base-dir registration, directory creation,
certificate / configuration / database loading, and the running app's exit
behaviour).  Side effects are recorded in an event trace so that claims about
"which calls happened" are statable.
-/

set_option linter.unusedVariables false

namespace CBindings

/-- The two mutable base-dir roles of the named location set
(`locations.ConfigBaseDir`, `locations.DataBaseDir`). -/
inductive BaseDirRole
  | config
  | data
deriving DecidableEq, Repr

/-- Observable side effects of a `libst_run_syncthing` / `libst_stop_syncthing`
invocation, in execution order. -/
inductive Event
  | setEnv (name value : String)
  | setBaseDir (role : BaseDirRole) (path : String)
  | ensureDirCall (role : BaseDirRole) (dir : String)
  | loadCert
  | loadConfig
  | openDB
  | appRun
  | appStop
deriving DecidableEq, Repr

/-- Sub-events of `ensureDir` (its filesystem calls). -/
inductive DirEvent
  | mkdirAll (dir : String) (mode : Nat)
  | stat (dir : String)
  | chmod (dir : String) (mode : Nat)
  | chmodWarn (dir : String)
deriving DecidableEq, Repr

/-- Oracle fixing the outcome of every call into an external collaborator.
Each field corresponds to one failure point of the bindings. -/
structure World where
  /-- `os.Getwd` as used by `filepath.Abs`: `none` means the working directory
  cannot be determined, the only failure mode of `filepath.Abs`. -/
  getwd : Option String
  /-- Whether `locations.SetBaseDir role path` fails. -/
  setBaseDirErr : BaseDirRole → String → Bool
  /-- Whether `fs.MkdirAll` fails for a given directory. -/
  mkdirErr : String → Bool
  /-- Result of `fs.Stat` on a directory: `none` = stat fails, `some m` = the
  stat succeeds and reports file mode `m`. -/
  statResult : String → Option Nat
  /-- Whether `fs.Chmod` fails for a given directory. -/
  chmodErr : String → Bool
  /-- Whether `syncthing.LoadOrGenerateCertificate` fails. -/
  certErr : Bool
  /-- Whether `syncthing.LoadConfigAtStartup` fails. -/
  cfgErr : Bool
  /-- Whether `syncthing.OpenDBBackend` fails. -/
  dbErr : Bool
  /-- Whether `theApp.Start()` returns an error. -/
  appStartErr : Bool
  /-- `theApp.Wait().AsInt()`: the instance's own termination exit code. -/
  appWaitCode : Int
  /-- `theApp.Stop(util.ExitSuccess)` as an int. -/
  appStopCode : Int

/-- The mutable named-location set, restricted to the two base dirs the
bindings mutate (`locations.SetBaseDir`). -/
structure Locations where
  configBase : String
  dataBase : String
deriving DecidableEq, Repr

/-- Process-wide mutable state of the bindings: the singleton instance handle
`theApp`, the device identity `myID` (rendered by `DeviceID.String()`, the
zero value rendering as the defined empty identity), the environment-variable
map and the named-location set. -/
structure LibState where
  theApp : Option Unit
  myID : String
  env : List (String × String)
  locs : Locations
deriving DecidableEq, Repr

/-- Arguments of `libst_run_syncthing`. -/
structure StartArgs where
  configDir : String
  dataDir : String
  guiAddress : String
  guiApiKey : String
  verbose : Bool
  allowNewerConfig : Bool
  noDefaultConfig : Bool
  ensureConfigDirExists : Bool
  ensureDataDirExists : Bool
deriving DecidableEq, Repr

/-- `os.Setenv` on an association-list environment. -/
def setEnvList (env : List (String × String)) (name value : String) :
    List (String × String) :=
  match env with
  | [] => [(name, value)]
  | (k, v) :: rest =>
    if k = name then (name, value) :: rest
    else (k, v) :: setEnvList rest name value

/-- `os.Getenv` (returns `""` when the variable is unset). -/
def getEnvList (env : List (String × String)) (name : String) : String :=
  match env with
  | [] => ""
  | (k, v) :: rest => if k = name then v else getEnvList rest name

/-- Modelled from the spec: `filepath.IsAbs` (the `path/filepath` library is
not in src) — a path is absolute when rooted, i.e. starts with the path
separator. -/
def isAbsPath (p : String) : Bool :=
  match p.data with
  | [] => false
  | c :: _ => c = '/'

/-- Modelled from the spec: `filepath.Abs` for a non-absolute path (the
`path/filepath` library is not in src) — "if not already absolute, resolve it
relative to the current working directory; on resolution failure, return a
distinct path error outcome".  Resolution fails exactly when the working
directory cannot be determined. -/
def absPath (w : World) (p : String) : Option String :=
  match w.getwd with
  | none => none
  | some wd => some (wd ++ "/" ++ p)

/-- Modelled from the spec: `locations.SetBaseDir` (the `lib/locations`
library is not in src) — "on success, atomically register the resolved path
under its symbolic role in the Named Location Set"; failure registers
nothing. -/
def setBase (locs : Locations) (role : BaseDirRole) (p : String) : Locations :=
  match role with
  | BaseDirRole.config => { locs with configBase := p }
  | BaseDirRole.data => { locs with dataBase := p }

/-- `locations.GetBaseDir`. -/
def getBase (locs : Locations) (role : BaseDirRole) : String :=
  match role with
  | BaseDirRole.config => locs.configBase
  | BaseDirRole.data => locs.dataBase

/-- The per-role block of `libst_run_syncthing` handling one directory
override (lines 264–294 of `c_bindings.go`): empty argument is skipped; a
non-absolute argument is made absolute via `filepath.Abs` (failure → exit
code 3); the resulting path is registered via `locations.SetBaseDir`
(failure → exit code 3). -/
def resolveAndSetBaseDir (w : World) (locs : Locations) (role : BaseDirRole)
    (dir : String) : Except Int (Locations × List Event) :=
  if dir = "" then Except.ok (locs, [])
  else
    match (if isAbsPath dir then some dir else absPath w dir) with
    | none => Except.error 3
    | some p =>
      if w.setBaseDirErr role p then Except.error 3
      else Except.ok (setBase locs role p, [Event.setBaseDir role p])

/-- Does the per-role directory block fail (and hence return exit code 3)? -/
def roleFails (w : World) (role : BaseDirRole) (dir : String) : Bool :=
  dir != "" &&
    (match (if isAbsPath dir then some dir else absPath w dir) with
     | none => true
     | some p => w.setBaseDirErr role p)

/-- `ensureDir` from `c_bindings.go` (lines 226–247): `MkdirAll` failure is
returned as the error; on success the mode is read back with `Stat` — a
failed stat is ignored; if the read-back mode differs from the required one,
`Chmod` is attempted and its failure only logged.  Returns the Go error
(`none` = nil error is modelled as `some ()` success, a failing `MkdirAll`
as `none`) together with the filesystem calls performed. -/
def ensureDir (w : World) (dir : String) (mode : Nat) :
    Option Unit × List DirEvent :=
  if w.mkdirErr dir then (none, [DirEvent.mkdirAll dir mode])
  else
    match w.statResult dir with
    | none => (some (), [DirEvent.mkdirAll dir mode, DirEvent.stat dir])
    | some fileMode =>
      if fileMode &&& 511 ≠ mode then
        if w.chmodErr dir then
          (some (), [DirEvent.mkdirAll dir mode, DirEvent.stat dir,
                     DirEvent.chmod dir mode, DirEvent.chmodWarn dir])
        else
          (some (), [DirEvent.mkdirAll dir mode, DirEvent.stat dir,
                     DirEvent.chmod dir mode])
      else (some (), [DirEvent.mkdirAll dir mode, DirEvent.stat dir])

/-- The GUI environment overrides of `libst_run_syncthing` (lines 256–262):
note that **both** branches write `STGUIADDRESS`. -/
def applyGuiEnv (env : List (String × String)) (a : StartArgs) :
    List (String × String) :=
  let env1 :=
    if a.guiAddress ≠ "" then setEnvList env "STGUIADDRESS" a.guiAddress
    else env
  if a.guiApiKey ≠ "" then setEnvList env1 "STGUIADDRESS" a.guiApiKey
  else env1

/-- Trace of the GUI environment overrides. -/
def guiEnvEvents (a : StartArgs) : List Event :=
  (if a.guiAddress ≠ "" then [Event.setEnv "STGUIADDRESS" a.guiAddress]
   else []) ++
  (if a.guiApiKey ≠ "" then [Event.setEnv "STGUIADDRESS" a.guiApiKey]
   else [])

/-- Trace of the optional config-directory preparation (lines 297–302). -/
def ensureConfigTrace (locs : Locations) (a : StartArgs) : List Event :=
  if a.ensureConfigDirExists then
    [Event.ensureDirCall BaseDirRole.config locs.configBase]
  else []

/-- Trace of the optional data-directory preparation (lines 305–310); note
the call is guarded by `dataDir != ""` in addition to the flag. -/
def ensureDataTrace (locs : Locations) (a : StartArgs) : List Event :=
  if a.dataDir != "" && a.ensureDataDirExists then
    [Event.ensureDirCall BaseDirRole.data locs.dataBase]
  else []

/-- Trace of both optional directory preparations. -/
def dirTrace (locs : Locations) (a : StartArgs) : List Event :=
  ensureConfigTrace locs a ++ ensureDataTrace locs a

/-- The return-code computation of the full-success path (lines 354–358): an
error from `theApp.Start()` sets `util.ExitError` into the return code, which
the unconditional `theApp.Wait().AsInt()` assignment then overwrites, so the
instance's own termination exit code is what is returned. -/
def runReturnCode (w : World) : Int :=
  let returnCode : Int := if w.appStartErr then 1 else 0
  let returnCode : Int := w.appWaitCode
  returnCode

/-- Lines 296–360 of `libst_run_syncthing`: the optional directory
preparation (`ensureDir`, failure → 4) followed by the fail-fast bootstrap
pipeline — certificate (failure → 1), configuration (failure → 2), database
(failure → 4) — and, on full success, the blocking run of the constructed
app, returning `runReturnCode`. -/
def bootstrap (w : World) (locs : Locations) (a : StartArgs) :
    Int × List Event :=
  if a.ensureConfigDirExists && (ensureDir w locs.configBase 448).1.isNone then
    (4, [Event.ensureDirCall BaseDirRole.config locs.configBase])
  else if (a.dataDir != "" && a.ensureDataDirExists)
      && (ensureDir w locs.dataBase 448).1.isNone then
    (4, ensureConfigTrace locs a
        ++ [Event.ensureDirCall BaseDirRole.data locs.dataBase])
  else if w.certErr then (1, dirTrace locs a ++ [Event.loadCert])
  else if w.cfgErr then
    (2, dirTrace locs a ++ [Event.loadCert, Event.loadConfig])
  else if w.dbErr then
    (4, dirTrace locs a ++ [Event.loadCert, Event.loadConfig, Event.openDB])
  else
    (runReturnCode w,
     dirTrace locs a
       ++ [Event.loadCert, Event.loadConfig, Event.openDB, Event.appRun])

/-- Lines 256–360 of `libst_run_syncthing` (everything after the
already-running guard): GUI environment overrides, per-role directory
registration, then the bootstrap pipeline.  On the full-success path
`theApp` is set to the new app before the blocking run and cleared back to
`none` once `Wait` returns, so the returned state always carries the cleared
handle.  Note that `myID` is never assigned. -/
def runIdle (w : World) (st : LibState) (a : StartArgs) :
    Int × LibState × List Event :=
  match resolveAndSetBaseDir w st.locs BaseDirRole.config a.configDir with
  | Except.error c => (c, { st with env := applyGuiEnv st.env a }, guiEnvEvents a)
  | Except.ok rc =>
    match resolveAndSetBaseDir w rc.1 BaseDirRole.data a.dataDir with
    | Except.error c =>
      (c, { st with env := applyGuiEnv st.env a, locs := rc.1 },
       guiEnvEvents a ++ rc.2)
    | Except.ok rd =>
      ((bootstrap w rd.1 a).1,
       { st with env := applyGuiEnv st.env a, locs := rd.1 },
       guiEnvEvents a ++ rc.2 ++ rd.2 ++ (bootstrap w rd.1 a).2)

/-- `libst_run_syncthing` (lines 250–361): the already-running no-op guard
(lines 251–254) followed by the body `runIdle`. -/
def libst_run_syncthing (w : World) (st : LibState) (a : StartArgs) :
    Int × LibState × List Event :=
  match st.theApp with
  | some _ => (0, st, [])
  | none => runIdle w st a

/-- `libst_own_device_id` (lines 208–211): renders `myID`. -/
def libst_own_device_id (st : LibState) : String := st.myID

/-- `libst_stop_syncthing` (lines 363–370): with a live handle, signal it
with `util.ExitSuccess` and return the resulting code; otherwise return 0
doing nothing. -/
def libst_stop_syncthing (w : World) (st : LibState) :
    Int × LibState × List Event :=
  match st.theApp with
  | some _ => (w.appStopCode, st, [Event.appStop])
  | none => (0, st, [])

/-- One record of the external logging callback being invoked with
(severity, message bytes, byte count). -/
structure LogCall where
  level : Nat
  msg : String
  size : Nat
deriving DecidableEq, Repr

/-- `libst_invoke_logging_callback` from `c_bindings.h` / the C side: a null
registered callback makes the dispatcher return without doing anything;
otherwise the callback is invoked exactly once with the given arguments. -/
def libst_invoke_logging_callback (callbackRegistered : Bool) (level : Nat)
    (msg : String) (size : Nat) : List LogCall :=
  if callbackRegistered then [{ level := level, msg := msg, size := size }]
  else []

/-- The handler closure registered by `libst_init_logging` (lines 214–223):
encode the message as bytes; if the byte length is not positive, return
without calling into C; otherwise hand (level, bytes, byte length) to
`libst_invoke_logging_callback`. -/
def loggingHandler (callbackRegistered : Bool) (level : Nat) (msg : String) :
    List LogCall :=
  let length := msg.utf8ByteSize
  if length ≤ 0 then []
  else libst_invoke_logging_callback callbackRegistered level msg length

/-- The verbosity threshold the handler is registered at
(`logger.LevelVerbose`). -/
def LevelVerbose : Nat := 1

/-- Modelled from the spec: the structured logger's dispatch
(`l.AddHandler`, `lib/logger` is not in src) — "for every log event at or
above that threshold" the registered sink runs; below it, or with no handler
installed, nothing runs. -/
def logEvent (handlerInstalled callbackRegistered : Bool) (level : Nat)
    (msg : String) : List LogCall :=
  if handlerInstalled && decide (LevelVerbose ≤ level) then
    loggingHandler callbackRegistered level msg
  else []

/-- The bootstrap-stage events, in trace order. -/
def stageEvents (tr : List Event) : List Event :=
  tr.filter fun e =>
    decide (e = Event.loadCert) || decide (e = Event.loadConfig)
      || decide (e = Event.openDB)

/-- Events emitted before the bootstrap pipeline (environment writes and
location registrations), as opposed to directory-preparation, stage and run
events. -/
def isPreEvent (e : Event) : Bool :=
  match e with
  | Event.setEnv _ _ => true
  | Event.setBaseDir _ _ => true
  | _ => false

/-- The location set the bootstrap pipeline runs under, when both directory
blocks succeed (`none` when either aborts with exit code 3). -/
def bootLocs (w : World) (st : LibState) (a : StartArgs) : Option Locations :=
  match resolveAndSetBaseDir w st.locs BaseDirRole.config a.configDir with
  | Except.error _ => none
  | Except.ok rc =>
    match resolveAndSetBaseDir w rc.1 BaseDirRole.data a.dataDir with
    | Except.error _ => none
    | Except.ok rd => some rd.1

/-! ### Concrete fixtures used by witnesses and counterexamples -/

/-- A world in which every external call succeeds; the working directory is
`/cwd` and the app terminates with exit code 0. -/
def allOkWorld : World where
  getwd := some "/cwd"
  setBaseDirErr := fun _ _ => false
  mkdirErr := fun _ => false
  statResult := fun _ => some 448
  chmodErr := fun _ => false
  certErr := false
  cfgErr := false
  dbErr := false
  appStartErr := false
  appWaitCode := 0
  appStopCode := 0

/-- The all-success world except that `os.Getwd` fails, so `filepath.Abs`
fails on every relative path. -/
def noCwdWorld : World :=
  { allOkWorld with getwd := none }

/-- The all-success world except that the certificate stage fails. -/
def certFailWorld : World :=
  { allOkWorld with certErr := true }

/-- The all-success world except that the configuration stage fails. -/
def cfgFailWorld : World :=
  { allOkWorld with cfgErr := true }

/-- The all-success world except that the database stage fails. -/
def dbFailWorld : World :=
  { allOkWorld with dbErr := true }

/-- Idle initial state: no handle, zero identity, empty environment, default
base dirs. -/
def idleState : LibState where
  theApp := none
  myID := ""
  env := []
  locs := { configBase := "/default/config", dataBase := "/default/data" }

/-- A state with a live instance handle. -/
def runningState : LibState :=
  { idleState with theApp := some () }

/-- All-empty / all-false arguments. -/
def defaultArgs : StartArgs where
  configDir := ""
  dataDir := ""
  guiAddress := ""
  guiApiKey := ""
  verbose := false
  allowNewerConfig := false
  noDefaultConfig := false
  ensureConfigDirExists := false
  ensureDataDirExists := false

/-- Arguments supplying both GUI overrides. -/
def guiArgs : StartArgs :=
  { defaultArgs with guiAddress := "addr", guiApiKey := "key" }

/-- Arguments supplying an absolute config dir and a relative data dir. -/
def bothDirsArgs : StartArgs :=
  { defaultArgs with configDir := "/c", dataDir := "d" }

/-- Arguments supplying only a relative config dir. -/
def relConfigArgs : StartArgs :=
  { defaultArgs with configDir := "rel" }

/-- Arguments requesting data-dir preparation without a data-dir override. -/
def ensureDataNoDirArgs : StartArgs :=
  { defaultArgs with ensureDataDirExists := true }

/-- Arguments supplying a data dir and requesting its preparation. -/
def ensureDataWithDirArgs : StartArgs :=
  { defaultArgs with dataDir := "/d", ensureDataDirExists := true }

/-! ### Helper lemmas -/

/-- A non-empty string has a positive UTF-8 byte length. -/
theorem utf8ByteSize_pos_of_ne_empty (s : String) (h : s ≠ "") :
    0 < s.utf8ByteSize := by
  rcases s with ⟨cs⟩
  have hcs : cs ≠ [] := by
    intro hn
    subst hn
    exact h rfl
  refine Nat.pos_of_ne_zero fun h0 => hcs ?_
  have h1 : String.utf8Len cs = 0 := by simpa using h0
  exact String.utf8Len_eq_zero.mp h1

/-- The Go error returned by `ensureDir` depends only on the `MkdirAll`
outcome. -/
theorem ensureDir_fst_eq (w : World) (dir : String) (mode : Nat) :
    (ensureDir w dir mode).1 = if w.mkdirErr dir then none else some () := by
  unfold ensureDir
  split
  · rfl
  · split
    · rfl
    · split
      · split <;> rfl
      · rfl

/-- `libst_run_syncthing` never assigns `myID`. -/
theorem run_preserves_myID (w : World) (st : LibState) (a : StartArgs) :
    (libst_run_syncthing w st a).2.1.myID = st.myID := by
  unfold libst_run_syncthing
  split
  · rfl
  · unfold runIdle
    split
    · rfl
    · split <;> rfl

/-- In the idle state `libst_run_syncthing` is its body `runIdle`. -/
theorem run_eq_idle (w : World) (st : LibState) (a : StartArgs)
    (h : st.theApp = none) :
    libst_run_syncthing w st a = runIdle w st a := by
  unfold libst_run_syncthing
  rw [h]

/-- `libst_run_syncthing` returns with the handle it started with: the no-op
keeps the live handle, every other path creates the app and clears it back
to `none` before returning. -/
theorem run_preserves_theApp (w : World) (st : LibState) (a : StartArgs) :
    (libst_run_syncthing w st a).2.1.theApp = st.theApp := by
  unfold libst_run_syncthing
  split
  · rename_i app heq
    rw [heq]
  · unfold runIdle
    split
    · rfl
    · split <;> rfl

/-- Full case analysis of one per-role directory block: skipped (empty
argument), resolution failure, registration failure, or successful
registration of the resolved path; each case also records the value of
`roleFails`. -/
theorem resolve_cases (w : World) (locs : Locations) (role : BaseDirRole)
    (dir : String) :
    (dir = "" ∧ roleFails w role dir = false
      ∧ resolveAndSetBaseDir w locs role dir = Except.ok (locs, []))
    ∨ (dir ≠ "" ∧ (if isAbsPath dir then some dir else absPath w dir) = none
      ∧ roleFails w role dir = true
      ∧ resolveAndSetBaseDir w locs role dir = Except.error 3)
    ∨ (∃ p, dir ≠ ""
      ∧ (if isAbsPath dir then some dir else absPath w dir) = some p
      ∧ w.setBaseDirErr role p = true
      ∧ roleFails w role dir = true
      ∧ resolveAndSetBaseDir w locs role dir = Except.error 3)
    ∨ (∃ p, dir ≠ ""
      ∧ (if isAbsPath dir then some dir else absPath w dir) = some p
      ∧ w.setBaseDirErr role p = false
      ∧ roleFails w role dir = false
      ∧ resolveAndSetBaseDir w locs role dir
          = Except.ok (setBase locs role p, [Event.setBaseDir role p])) := by
  by_cases hd : dir = ""
  · refine Or.inl ⟨hd, ?_, ?_⟩
    · simp [roleFails, hd]
    · simp [resolveAndSetBaseDir, hd]
  · rcases hp : (if isAbsPath dir then some dir else absPath w dir) with _ | p
    · refine Or.inr (Or.inl ⟨hd, rfl, ?_, ?_⟩)
      · simp [roleFails, hd, hp]
      · simp [resolveAndSetBaseDir, hd, hp]
    · rcases hsb : w.setBaseDirErr role p with _ | _
      · refine Or.inr (Or.inr (Or.inr ⟨p, hd, rfl, hsb, ?_, ?_⟩))
        · simp [roleFails, hd, hp, hsb]
        · simp [resolveAndSetBaseDir, hd, hp, hsb]
      · refine Or.inr (Or.inr (Or.inl ⟨p, hd, rfl, hsb, ?_, ?_⟩))
        · simp [roleFails, hd, hp, hsb]
        · simp [resolveAndSetBaseDir, hd, hp, hsb]

/-- Every GUI-override event is an environment write. -/
theorem mem_guiEnvEvents_pre (a : StartArgs) (e : Event)
    (h : e ∈ guiEnvEvents a) : isPreEvent e = true := by
  unfold guiEnvEvents at h
  rcases List.mem_append.mp h with h | h
  · split at h
    · simp at h
      subst h
      rfl
    · simp at h
  · split at h
    · simp at h
      subst h
      rfl
    · simp at h

/-- Every event of a successful per-role directory block is a location
registration. -/
theorem mem_resolve_ok_pre (w : World) (locs : Locations) (role : BaseDirRole)
    (dir : String) (pr : Locations × List Event)
    (h : resolveAndSetBaseDir w locs role dir = Except.ok pr) (e : Event)
    (he : e ∈ pr.2) : isPreEvent e = true := by
  unfold resolveAndSetBaseDir at h
  split at h
  · cases h
    simp at he
  · split at h
    · cases h
    · split at h
      · cases h
      · cases h
        simp at he
        subst he
        rfl

/-- Every config-preparation event is an `ensureDirCall` for the config
role. -/
theorem mem_ensureConfigTrace_shape (locs : Locations) (a : StartArgs)
    (e : Event) (h : e ∈ ensureConfigTrace locs a) :
    e = Event.ensureDirCall BaseDirRole.config locs.configBase := by
  unfold ensureConfigTrace at h
  split at h
  · simpa using h
  · simp at h

/-- Every directory-preparation event is an `ensureDirCall`. -/
theorem mem_dirTrace_shape (locs : Locations) (a : StartArgs) (e : Event)
    (h : e ∈ dirTrace locs a) : ∃ r p, e = Event.ensureDirCall r p := by
  unfold dirTrace at h
  rcases List.mem_append.mp h with h | h
  · exact ⟨_, _, mem_ensureConfigTrace_shape locs a e h⟩
  · unfold ensureDataTrace at h
    split at h
    · simp at h
      subst h
      exact ⟨_, _, rfl⟩
    · simp at h

/-- Full case analysis of the bootstrap pipeline: config-dir preparation
failure, data-dir preparation failure, certificate failure, configuration
failure, database failure, full run. -/
theorem bootstrap_cases (w : World) (locs : Locations) (a : StartArgs) :
    bootstrap w locs a
        = (4, [Event.ensureDirCall BaseDirRole.config locs.configBase])
    ∨ bootstrap w locs a
        = (4, ensureConfigTrace locs a
            ++ [Event.ensureDirCall BaseDirRole.data locs.dataBase])
    ∨ (w.certErr = true
        ∧ bootstrap w locs a = (1, dirTrace locs a ++ [Event.loadCert]))
    ∨ (w.certErr = false ∧ w.cfgErr = true
        ∧ bootstrap w locs a
            = (2, dirTrace locs a ++ [Event.loadCert, Event.loadConfig]))
    ∨ (w.certErr = false ∧ w.cfgErr = false ∧ w.dbErr = true
        ∧ bootstrap w locs a
            = (4, dirTrace locs a
                ++ [Event.loadCert, Event.loadConfig, Event.openDB]))
    ∨ (w.certErr = false ∧ w.cfgErr = false ∧ w.dbErr = false
        ∧ bootstrap w locs a
            = (w.appWaitCode, dirTrace locs a
                ++ [Event.loadCert, Event.loadConfig, Event.openDB,
                    Event.appRun])) := by
  unfold bootstrap
  split
  · exact Or.inl rfl
  · split
    · exact Or.inr (Or.inl rfl)
    · split
      · rename_i h3
        exact Or.inr (Or.inr (Or.inl ⟨h3, rfl⟩))
      · rename_i h3
        split
        · rename_i h4
          exact Or.inr (Or.inr (Or.inr (Or.inl ⟨by simpa using h3, h4, rfl⟩)))
        · rename_i h4
          split
          · rename_i h5
            exact Or.inr (Or.inr (Or.inr (Or.inr (Or.inl
              ⟨by simpa using h3, by simpa using h4, h5, rfl⟩))))
          · rename_i h5
            exact Or.inr (Or.inr (Or.inr (Or.inr (Or.inr
              ⟨by simpa using h3, by simpa using h4, by simpa using h5,
               rfl⟩))))

/-- `stageEvents` distributes over concatenation. -/
theorem stageEvents_append (l1 l2 : List Event) :
    stageEvents (l1 ++ l2) = stageEvents l1 ++ stageEvents l2 :=
  List.filter_append _ _

/-- A list of pre-bootstrap events contains no stage events. -/
theorem stageEvents_eq_nil_of_pre (l : List Event)
    (h : ∀ e ∈ l, isPreEvent e = true) : stageEvents l = [] := by
  unfold stageEvents
  rw [List.filter_eq_nil_iff]
  intro e he
  have hp := h e he
  cases e <;> simp_all [isPreEvent]

/-- Directory-preparation traces contain no stage events. -/
theorem stageEvents_dirTrace (locs : Locations) (a : StartArgs) :
    stageEvents (dirTrace locs a) = [] := by
  unfold stageEvents
  rw [List.filter_eq_nil_iff]
  intro e he
  obtain ⟨r, p, hep⟩ := mem_dirTrace_shape locs a e he
  subst hep
  simp

/-- An event that is no `ensureDirCall` is not in the directory-preparation
trace. -/
theorem not_mem_dirTrace (locs : Locations) (a : StartArgs) (e : Event)
    (hne : ∀ r p, e ≠ Event.ensureDirCall r p) : e ∉ dirTrace locs a := by
  intro h
  obtain ⟨r, p, he⟩ := mem_dirTrace_shape locs a e h
  exact hne r p he

/-- When both directory blocks succeed, the `Start` call returns the
bootstrap's exit code, the non-pre events of its trace are exactly those of
the bootstrap, and the stage events coincide. -/
theorem run_reaches_bootstrap (w : World) (st : LibState) (a : StartArgs)
    (hA : st.theApp = none) (locs2 : Locations)
    (hB : bootLocs w st a = some locs2) :
    (libst_run_syncthing w st a).1 = (bootstrap w locs2 a).1
    ∧ (∀ e, isPreEvent e = false →
        (e ∈ (libst_run_syncthing w st a).2.2 ↔ e ∈ (bootstrap w locs2 a).2))
    ∧ stageEvents (libst_run_syncthing w st a).2.2
        = stageEvents (bootstrap w locs2 a).2 := by
  rw [run_eq_idle w st a hA]
  unfold bootLocs at hB
  unfold runIdle
  rcases hC : resolveAndSetBaseDir w st.locs BaseDirRole.config a.configDir
      with c | rc
  · rw [hC] at hB
    simp at hB
  · rw [hC] at hB
    dsimp only at hB
    dsimp only
    rcases hD : resolveAndSetBaseDir w rc.1 BaseDirRole.data a.dataDir
        with c | rd
    · rw [hD] at hB
      simp at hB
    · rw [hD] at hB
      dsimp only at hB
      injection hB with hB
      subst hB
      refine ⟨rfl, ?_, ?_⟩
      · intro e he
        dsimp only
        simp only [List.mem_append]
        constructor
        · rintro (((h | h) | h) | h)
          · rw [mem_guiEnvEvents_pre a e h] at he
            cases he
          · rw [mem_resolve_ok_pre w st.locs BaseDirRole.config a.configDir
                rc hC e h] at he
            cases he
          · rw [mem_resolve_ok_pre w rc.1 BaseDirRole.data a.dataDir
                rd hD e h] at he
            cases he
          · exact h
        · exact fun h => Or.inr h
      · dsimp only
        rw [stageEvents_append, stageEvents_append, stageEvents_append,
            stageEvents_eq_nil_of_pre _ (mem_guiEnvEvents_pre a),
            stageEvents_eq_nil_of_pre _
              (mem_resolve_ok_pre w st.locs BaseDirRole.config a.configDir
                rc hC),
            stageEvents_eq_nil_of_pre _
              (mem_resolve_ok_pre w rc.1 BaseDirRole.data a.dataDir rd hD)]
        simp

/-- When a directory block aborts, the `Start` call returns exit code 3 with
a trace of pre-bootstrap events only. -/
theorem run_aborts_path (w : World) (st : LibState) (a : StartArgs)
    (hA : st.theApp = none) (hB : bootLocs w st a = none) :
    (libst_run_syncthing w st a).1 = 3
    ∧ (∀ e, isPreEvent e = false → e ∉ (libst_run_syncthing w st a).2.2)
    ∧ stageEvents (libst_run_syncthing w st a).2.2 = [] := by
  rw [run_eq_idle w st a hA]
  unfold bootLocs at hB
  unfold runIdle
  rcases hC : resolveAndSetBaseDir w st.locs BaseDirRole.config a.configDir
      with c | rc
  · have hc3 : c = 3 := by
      rcases resolve_cases w st.locs BaseDirRole.config a.configDir with
          ⟨_, _, h⟩ | ⟨_, _, _, h⟩ | ⟨p, _, _, _, _, h⟩ | ⟨p, _, _, _, _, h⟩ <;>
        rw [hC] at h <;> simp at h <;> exact h
    subst hc3
    refine ⟨rfl, ?_, stageEvents_eq_nil_of_pre _ (mem_guiEnvEvents_pre a)⟩
    intro e he h
    rw [mem_guiEnvEvents_pre a e h] at he
    cases he
  · rw [hC] at hB
    dsimp only at hB
    dsimp only
    rcases hD : resolveAndSetBaseDir w rc.1 BaseDirRole.data a.dataDir
        with c | rd
    · have hc3 : c = 3 := by
        rcases resolve_cases w rc.1 BaseDirRole.data a.dataDir with
            ⟨_, _, h⟩ | ⟨_, _, _, h⟩ | ⟨p, _, _, _, _, h⟩ | ⟨p, _, _, _, _, h⟩ <;>
          rw [hD] at h <;> simp at h <;> exact h
      subst hc3
      refine ⟨rfl, ?_, ?_⟩
      · intro e he h
        dsimp only at h
        rcases List.mem_append.mp h with h | h
        · rw [mem_guiEnvEvents_pre a e h] at he
          cases he
        · rw [mem_resolve_ok_pre w st.locs BaseDirRole.config a.configDir
              rc hC e h] at he
          cases he
      · dsimp only
        rw [stageEvents_append,
            stageEvents_eq_nil_of_pre _ (mem_guiEnvEvents_pre a),
            stageEvents_eq_nil_of_pre _
              (mem_resolve_ok_pre w st.locs BaseDirRole.config a.configDir
                rc hC)]
        rfl
    · rw [hD] at hB
      simp at hB

/-- `stageEvents` of the config-preparation trace is empty. -/
theorem stageEvents_ensureConfigTrace (locs : Locations) (a : StartArgs) :
    stageEvents (ensureConfigTrace locs a) = [] := by
  unfold ensureConfigTrace
  split
  · rfl
  · rfl

/-- An event that is no `ensureDirCall` and not in `l` is not in
`dirTrace ++ l`. -/
theorem stage_not_mem_dir_app (locs : Locations) (a : StartArgs) (e : Event)
    (l : List Event) (hne : ∀ r p, e ≠ Event.ensureDirCall r p)
    (hnl : e ∉ l) : e ∉ dirTrace locs a ++ l := by
  intro hm
  rcases List.mem_append.mp hm with hm | hm
  · exact not_mem_dirTrace locs a e hne hm
  · exact hnl hm

/-- Fail-fast facts at the bootstrap level: the stage events are always a
prefix of certificate–configuration–database; a certificate failure yields
exit code 1 with no later stage; a configuration failure yields 2 with no
later stage; a database failure yields 4 with no run. -/
theorem bootstrap_stage_facts (w : World) (locs : Locations) (a : StartArgs) :
    stageEvents (bootstrap w locs a).2
        <+: [Event.loadCert, Event.loadConfig, Event.openDB]
    ∧ (w.certErr = true → Event.loadCert ∈ (bootstrap w locs a).2 →
        (bootstrap w locs a).1 = 1
        ∧ Event.loadConfig ∉ (bootstrap w locs a).2
        ∧ Event.openDB ∉ (bootstrap w locs a).2
        ∧ Event.appRun ∉ (bootstrap w locs a).2)
    ∧ (w.cfgErr = true → Event.loadConfig ∈ (bootstrap w locs a).2 →
        (bootstrap w locs a).1 = 2
        ∧ Event.openDB ∉ (bootstrap w locs a).2
        ∧ Event.appRun ∉ (bootstrap w locs a).2)
    ∧ (w.dbErr = true → Event.openDB ∈ (bootstrap w locs a).2 →
        (bootstrap w locs a).1 = 4
        ∧ Event.appRun ∉ (bootstrap w locs a).2) := by
  rcases bootstrap_cases w locs a with
      hb | hb | ⟨hc, hb⟩ | ⟨hc, hf, hb⟩ | ⟨hc, hf, hd, hb⟩ | ⟨hc, hf, hd, hb⟩ <;>
    rw [hb]
  · refine ⟨?_, ?_, ?_, ?_⟩
    · exact List.nil_prefix
    · intro _ hm
      simp at hm
    · intro _ hm
      simp at hm
    · intro _ hm
      simp at hm
  · have hnm : ∀ e : Event, (∀ r p, e ≠ Event.ensureDirCall r p) →
        e ∉ ensureConfigTrace locs a
          ++ [Event.ensureDirCall BaseDirRole.data locs.dataBase] := by
      intro e hne hm
      rcases List.mem_append.mp hm with hm | hm
      · exact hne _ _ (mem_ensureConfigTrace_shape locs a e hm)
      · simp at hm
        exact hne _ _ hm
    refine ⟨?_, ?_, ?_, ?_⟩
    · rw [stageEvents_append, stageEvents_ensureConfigTrace]
      exact List.nil_prefix
    · intro _ hm
      exact absurd hm (hnm _ (fun r p h => Event.noConfusion h))
    · intro _ hm
      exact absurd hm (hnm _ (fun r p h => Event.noConfusion h))
    · intro _ hm
      exact absurd hm (hnm _ (fun r p h => Event.noConfusion h))
  · refine ⟨?_, ?_, ?_, ?_⟩
    · rw [stageEvents_append, stageEvents_dirTrace]
      exact ⟨[Event.loadConfig, Event.openDB], rfl⟩
    · intro _ _
      refine ⟨rfl, ?_, ?_, ?_⟩ <;>
        exact stage_not_mem_dir_app locs a _ _
          (fun r p h => Event.noConfusion h) (by simp)
    · intro _ hm
      exact absurd hm (stage_not_mem_dir_app locs a _ _
        (fun r p h => Event.noConfusion h) (by simp))
    · intro _ hm
      exact absurd hm (stage_not_mem_dir_app locs a _ _
        (fun r p h => Event.noConfusion h) (by simp))
  · refine ⟨?_, ?_, ?_, ?_⟩
    · rw [stageEvents_append, stageEvents_dirTrace]
      exact ⟨[Event.openDB], rfl⟩
    · intro hcert _
      rw [hc] at hcert
      exact Bool.noConfusion hcert
    · intro _ _
      refine ⟨rfl, ?_, ?_⟩ <;>
        exact stage_not_mem_dir_app locs a _ _
          (fun r p h => Event.noConfusion h) (by simp)
    · intro _ hm
      exact absurd hm (stage_not_mem_dir_app locs a _ _
        (fun r p h => Event.noConfusion h) (by simp))
  · refine ⟨?_, ?_, ?_, ?_⟩
    · rw [stageEvents_append, stageEvents_dirTrace]
      exact ⟨[], rfl⟩
    · intro hcert _
      rw [hc] at hcert
      exact Bool.noConfusion hcert
    · intro hcfg _
      rw [hf] at hcfg
      exact Bool.noConfusion hcfg
    · intro _ _
      refine ⟨rfl, ?_⟩
      exact stage_not_mem_dir_app locs a _ _
        (fun r p h => Event.noConfusion h) (by simp)
  · refine ⟨?_, ?_, ?_, ?_⟩
    · rw [stageEvents_append, stageEvents_dirTrace]
      exact ⟨[], rfl⟩
    · intro hcert _
      rw [hc] at hcert
      exact Bool.noConfusion hcert
    · intro hcfg _
      rw [hf] at hcfg
      exact Bool.noConfusion hcfg
    · intro hdb _
      rw [hd] at hdb
      exact Bool.noConfusion hdb

/-- Every GUI-override event is a `setEnv`. -/
theorem mem_guiEnvEvents_setEnv (a : StartArgs) (e : Event)
    (h : e ∈ guiEnvEvents a) : ∃ n v, e = Event.setEnv n v := by
  unfold guiEnvEvents at h
  rcases List.mem_append.mp h with h | h
  · split at h
    · simp at h
      exact ⟨_, _, h⟩
    · simp at h
  · split at h
    · simp at h
      exact ⟨_, _, h⟩
    · simp at h

/-- Characterization of a successful per-role directory block: either the
argument was empty and nothing happened, or the resolved path was registered
under the role. -/
theorem resolve_ok_base (w : World) (locs : Locations) (role : BaseDirRole)
    (dir : String) (pr : Locations × List Event)
    (h : resolveAndSetBaseDir w locs role dir = Except.ok pr) :
    (dir = "" ∧ pr.1 = locs ∧ pr.2 = [])
    ∨ ∃ p, (if isAbsPath dir then some dir else absPath w dir) = some p
        ∧ pr.1 = setBase locs role p
        ∧ pr.2 = [Event.setBaseDir role p] := by
  unfold resolveAndSetBaseDir at h
  split at h
  · rename_i hd
    cases h
    exact Or.inl ⟨hd, rfl, rfl⟩
  · split at h
    · cases h
    · rename_i p hp
      split at h
      · cases h
      · cases h
        exact Or.inr ⟨p, hp, rfl, rfl⟩

/-- A failing per-role directory block (`roleFails`) makes the block return
the path error. -/
theorem resolve_roleFails_true (w : World) (locs : Locations)
    (role : BaseDirRole) (dir : String) (h : roleFails w role dir = true) :
    resolveAndSetBaseDir w locs role dir = Except.error 3 := by
  rcases resolve_cases w locs role dir with
      ⟨_, hrf, _⟩ | ⟨_, _, _, hres⟩ | ⟨p, _, _, _, _, hres⟩ | ⟨p, _, _, _, hrf, _⟩
  · rw [h] at hrf
    exact Bool.noConfusion hrf
  · exact hres
  · exact hres
  · rw [h] at hrf
    exact Bool.noConfusion hrf

/-- A non-failing per-role directory block succeeds. -/
theorem resolve_roleFails_false (w : World) (locs : Locations)
    (role : BaseDirRole) (dir : String) (h : roleFails w role dir = false) :
    ∃ pr, resolveAndSetBaseDir w locs role dir = Except.ok pr := by
  rcases resolve_cases w locs role dir with
      ⟨_, _, hres⟩ | ⟨_, _, hrf, _⟩ | ⟨p, _, _, _, hrf, _⟩ | ⟨p, _, _, _, _, hres⟩
  · exact ⟨_, hres⟩
  · rw [h] at hrf
    exact Bool.noConfusion hrf
  · rw [h] at hrf
    exact Bool.noConfusion hrf
  · exact ⟨_, hres⟩

/-- Shape of bootstrap-trace events: directory preparations, stages, or the
run. -/
theorem mem_bootstrap_shape (w : World) (locs : Locations) (a : StartArgs)
    (e : Event) (h : e ∈ (bootstrap w locs a).2) :
    (∃ r p, e = Event.ensureDirCall r p) ∨ e = Event.loadCert
      ∨ e = Event.loadConfig ∨ e = Event.openDB ∨ e = Event.appRun := by
  rcases bootstrap_cases w locs a with
      hb | hb | ⟨_, hb⟩ | ⟨_, _, hb⟩ | ⟨_, _, _, hb⟩ | ⟨_, _, _, hb⟩ <;>
    rw [hb] at h
  · simp at h
    exact Or.inl ⟨_, _, h⟩
  · rcases List.mem_append.mp h with h | h
    · exact Or.inl ⟨_, _, mem_ensureConfigTrace_shape locs a e h⟩
    · simp at h
      exact Or.inl ⟨_, _, h⟩
  · rcases List.mem_append.mp h with h | h
    · exact Or.inl (mem_dirTrace_shape locs a e h)
    · simp at h
      exact Or.inr (Or.inl h)
  · rcases List.mem_append.mp h with h | h
    · exact Or.inl (mem_dirTrace_shape locs a e h)
    · simp at h
      rcases h with h | h
      · exact Or.inr (Or.inl h)
      · exact Or.inr (Or.inr (Or.inl h))
  · rcases List.mem_append.mp h with h | h
    · exact Or.inl (mem_dirTrace_shape locs a e h)
    · simp at h
      rcases h with h | h | h
      · exact Or.inr (Or.inl h)
      · exact Or.inr (Or.inr (Or.inl h))
      · exact Or.inr (Or.inr (Or.inr (Or.inl h)))
  · rcases List.mem_append.mp h with h | h
    · exact Or.inl (mem_dirTrace_shape locs a e h)
    · simp at h
      rcases h with h | h | h | h
      · exact Or.inr (Or.inl h)
      · exact Or.inr (Or.inr (Or.inl h))
      · exact Or.inr (Or.inr (Or.inr (Or.inl h)))
      · exact Or.inr (Or.inr (Or.inr (Or.inr h)))

/-- The bootstrap never registers a location. -/
theorem setBaseDir_not_mem_bootstrap (w : World) (locs : Locations)
    (a : StartArgs) (r : BaseDirRole) (p : String) :
    Event.setBaseDir r p ∉ (bootstrap w locs a).2 := by
  intro h
  rcases mem_bootstrap_shape w locs a _ h with ⟨r', p', he⟩ | he | he | he | he
  · exact Event.noConfusion he
  · exact Event.noConfusion he
  · exact Event.noConfusion he
  · exact Event.noConfusion he
  · exact Event.noConfusion he

/-- Case characterization of `runIdle`: abort in the config block, abort in
the data block, or reach the bootstrap. -/
theorem runIdle_eq_cases (w : World) (st : LibState) (a : StartArgs) :
    (∃ c, resolveAndSetBaseDir w st.locs BaseDirRole.config a.configDir
        = Except.error c
      ∧ runIdle w st a
          = (c, { st with env := applyGuiEnv st.env a }, guiEnvEvents a))
    ∨ (∃ rc c,
        resolveAndSetBaseDir w st.locs BaseDirRole.config a.configDir
          = Except.ok rc
        ∧ resolveAndSetBaseDir w rc.1 BaseDirRole.data a.dataDir
          = Except.error c
        ∧ runIdle w st a
            = (c, { st with env := applyGuiEnv st.env a, locs := rc.1 },
               guiEnvEvents a ++ rc.2))
    ∨ (∃ rc rd,
        resolveAndSetBaseDir w st.locs BaseDirRole.config a.configDir
          = Except.ok rc
        ∧ resolveAndSetBaseDir w rc.1 BaseDirRole.data a.dataDir
          = Except.ok rd
        ∧ runIdle w st a
            = ((bootstrap w rd.1 a).1,
               { st with env := applyGuiEnv st.env a, locs := rd.1 },
               guiEnvEvents a ++ rc.2 ++ rd.2 ++ (bootstrap w rd.1 a).2)) := by
  rcases hC : resolveAndSetBaseDir w st.locs BaseDirRole.config a.configDir
      with c | rc
  · refine Or.inl ⟨c, rfl, ?_⟩
    unfold runIdle
    rw [hC]
  · rcases hD : resolveAndSetBaseDir w rc.1 BaseDirRole.data a.dataDir
        with c | rd
    · refine Or.inr (Or.inl ⟨rc, c, rfl, hD, ?_⟩)
      unfold runIdle
      rw [hC]
      dsimp only
      rw [hD]
    · refine Or.inr (Or.inr ⟨rc, rd, rfl, hD, ?_⟩)
      unfold runIdle
      rw [hC]
      dsimp only
      rw [hD]

/-! ### Claim theorems -/

/-- **C2.** A `Start` call while an instance is already running (`theApp` is
non-nil) returns the no-op code 0 immediately with the state unchanged and
an empty side-effect trace: no filesystem mutation, no environment change,
no named-location change, no other state change. -/
theorem start_noop_when_running (w : World) (st : LibState) (a : StartArgs)
    (app : Unit) (h : st.theApp = some app) :
    libst_run_syncthing w st a = (0, st, []) := by
  unfold libst_run_syncthing
  rw [h]

/-- Witness for `start_noop_when_running`. -/
theorem start_noop_when_running_witness :
    libst_run_syncthing allOkWorld runningState defaultArgs
      = (0, runningState, []) :=
  start_noop_when_running allOkWorld runningState defaultArgs () rfl

/-- **C7.** `Stop` with no instance handle (`theApp` nil — the `Idle` state,
and `Starting` before the handle is created) returns the no-op code 0 with
no side effects; only with a live handle does it signal the instance. -/
theorem stop_signals_only_with_handle (w : World) (st : LibState) :
    (st.theApp = none → libst_stop_syncthing w st = (0, st, []))
    ∧ (∀ app, st.theApp = some app →
        libst_stop_syncthing w st = (w.appStopCode, st, [Event.appStop])) := by
  constructor
  · intro h
    unfold libst_stop_syncthing
    rw [h]
  · intro app h
    unfold libst_stop_syncthing
    rw [h]

/-- Witness for `stop_signals_only_with_handle`. -/
theorem stop_signals_only_with_handle_witness :
    libst_stop_syncthing allOkWorld idleState = (0, idleState, [])
    ∧ libst_stop_syncthing allOkWorld runningState
        = (allOkWorld.appStopCode, runningState, [Event.appStop]) :=
  ⟨(stop_signals_only_with_handle allOkWorld idleState).1 rfl,
   (stop_signals_only_with_handle allOkWorld runningState).2 () rfl⟩

/-- **C9.** `ensureDir` returns an error exactly when directory creation
(`MkdirAll`) fails; its result is independent of the `Stat` read-back and
`Chmod` outcomes, so a failed read-back or a failed mode change still yields
success and does not abort startup. -/
theorem ensureDir_error_only_on_creation (w : World) (dir : String)
    (mode : Nat) :
    ((ensureDir w dir mode).1 = none ↔ w.mkdirErr dir = true)
    ∧ (∀ s c, (ensureDir { w with statResult := s, chmodErr := c } dir mode).1
        = (ensureDir w dir mode).1) := by
  constructor
  · rw [ensureDir_fst_eq]
    split <;> simp_all
  · intro s c
    rw [ensureDir_fst_eq, ensureDir_fst_eq]

/-- **C3 (code bug).** `myID` is never assigned anywhere in the bindings, so
`libst_own_device_id` still renders the zero identity even after a fully
successful, certificate-loading `Start`: concretely, starting from the fresh
state in the all-success world loads the certificate and runs to completion,
yet the device id afterwards is still the empty identity, contradicting the
claimed non-empty identity derived from the loaded certificate. -/
theorem own_device_id_never_updated :
    (∀ w st a, (libst_run_syncthing w st a).2.1.myID = st.myID)
    ∧ Event.loadCert
        ∈ (libst_run_syncthing allOkWorld idleState defaultArgs).2.2
    ∧ Event.appRun
        ∈ (libst_run_syncthing allOkWorld idleState defaultArgs).2.2
    ∧ libst_own_device_id
        (libst_run_syncthing allOkWorld idleState defaultArgs).2.1 = "" := by
  refine ⟨fun w st a => run_preserves_myID w st a, by decide, by decide, rfl⟩

/-- **C4 (code bug).** The GUI API key is written into `STGUIADDRESS` — the
same environment variable as the GUI address, not a distinct one: with both
overrides supplied, the final environment holds the API key under
`STGUIADDRESS` (the address is clobbered) and every environment write of the
whole call targets `STGUIADDRESS`. -/
theorem gui_api_key_overwrites_address :
    getEnvList (libst_run_syncthing allOkWorld idleState guiArgs).2.1.env
        "STGUIADDRESS" = "key"
    ∧ (∀ n v,
        Event.setEnv n v ∈ (libst_run_syncthing allOkWorld idleState guiArgs).2.2
        → n = "STGUIADDRESS")
    ∧ guiArgs.guiAddress = "addr" ∧ guiArgs.guiApiKey = "key" := by
  refine ⟨rfl, ?_, rfl, rfl⟩
  intro n v h
  have htr : (libst_run_syncthing allOkWorld idleState guiArgs).2.2
      = [Event.setEnv "STGUIADDRESS" "addr", Event.setEnv "STGUIADDRESS" "key",
         Event.loadCert, Event.loadConfig, Event.openDB, Event.appRun] := rfl
  rw [htr] at h
  simp only [List.mem_cons, List.not_mem_nil, or_false, Event.setEnv.injEq] at h
  rcases h with ⟨h1, h2⟩ | ⟨h1, h2⟩ | h | h | h | h
  · exact h1
  · exact h1
  · exact Event.noConfusion h
  · exact Event.noConfusion h
  · exact Event.noConfusion h
  · exact Event.noConfusion h

/-- **C6.** A log event at or above the verbose threshold with a non-empty
message makes the bridge invoke the registered callback exactly once, with a
byte count equal to the message's UTF-8 byte length; an empty message yields
zero invocations; with no registered callback both the C dispatcher and the
whole bridge are no-ops. -/
theorem logging_callback_exactly_once (level : Nat) (msg : String) :
    (LevelVerbose ≤ level → msg ≠ "" →
      logEvent true true level msg
        = [{ level := level, msg := msg, size := msg.utf8ByteSize }])
    ∧ logEvent true true level "" = []
    ∧ (∀ s, libst_invoke_logging_callback false level msg s = [])
    ∧ logEvent true false level msg = [] := by
  refine ⟨?_, ?_, ?_, ?_⟩
  · intro hlev hmsg
    have hpos := utf8ByteSize_pos_of_ne_empty msg hmsg
    unfold logEvent
    rw [if_pos (by simp [hlev])]
    unfold loggingHandler
    rw [if_neg (by omega)]
    rfl
  · unfold logEvent loggingHandler
    split
    · rfl
    · rfl
  · intro s
    rfl
  · unfold logEvent loggingHandler
    split
    · simp [libst_invoke_logging_callback]
    · rfl

/-- Witness for `logging_callback_exactly_once`. -/
theorem logging_callback_exactly_once_witness :
    logEvent true true 2 "hi" = [{ level := 2, msg := "hi", size := 2 }]
    ∧ logEvent true true 2 "" = []
    ∧ libst_invoke_logging_callback false 2 "hi" 2 = []
    ∧ logEvent true false 2 "hi" = [] :=
  ⟨(logging_callback_exactly_once 2 "hi").1 (by decide) (by decide),
   (logging_callback_exactly_once 2 "").2.1,
   (logging_callback_exactly_once 2 "hi").2.2.1 2,
   (logging_callback_exactly_once 2 "hi").2.2.2⟩

/-- `guiEnvEvents` never contains a directory-preparation event. -/
theorem ensureDirCall_not_mem_guiEnvEvents (a : StartArgs) (r : BaseDirRole)
    (p : String) : Event.ensureDirCall r p ∉ guiEnvEvents a := by
  unfold guiEnvEvents
  split <;> split <;> simp

/-- A successful per-role directory block emits only `setBaseDir` events. -/
theorem resolve_ok_no_ensureDirCall (w : World) (locs : Locations)
    (role : BaseDirRole) (dir : String) (pr : Locations × List Event)
    (h : resolveAndSetBaseDir w locs role dir = Except.ok pr)
    (r : BaseDirRole) (p : String) : Event.ensureDirCall r p ∉ pr.2 := by
  unfold resolveAndSetBaseDir at h
  split at h
  · cases h
    simp
  · split at h
    · cases h
    · split at h
      · cases h
      · cases h
        simp

/-- A data-dir preparation event in `ensureDataTrace` forces its guard. -/
theorem ensureDataTrace_data_mem (locs : Locations) (a : StartArgs)
    (p : String)
    (h : Event.ensureDirCall BaseDirRole.data p ∈ ensureDataTrace locs a) :
    (a.dataDir != "" && a.ensureDataDirExists) = true := by
  unfold ensureDataTrace at h
  split at h
  · assumption
  · simp at h

/-- A data-dir preparation event in the combined directory-preparation trace
forces the data guard (the config half only carries config events). -/
theorem dirTrace_data_mem (locs : Locations) (a : StartArgs) (p : String)
    (h : Event.ensureDirCall BaseDirRole.data p ∈ dirTrace locs a) :
    (a.dataDir != "" && a.ensureDataDirExists) = true := by
  unfold dirTrace at h
  rcases List.mem_append.mp h with h | h
  · refine absurd h ?_
    unfold ensureConfigTrace
    split <;> simp
  · exact ensureDataTrace_data_mem locs a p h

/-- A data-dir preparation event in the bootstrap trace forces both a
non-empty data-dir override and the `ensureDataDirExists` flag. -/
theorem bootstrap_ensureDirCall_data_mem (w : World) (locs : Locations)
    (a : StartArgs) (p : String)
    (h : Event.ensureDirCall BaseDirRole.data p ∈ (bootstrap w locs a).2) :
    (a.dataDir != "" && a.ensureDataDirExists) = true := by
  unfold bootstrap at h
  split at h
  · simp at h
  · split at h
    · rename_i hguard
      exact ((Bool.and_eq_true _ _).mp hguard).1
    · split at h
      · rcases List.mem_append.mp h with h | h
        · exact dirTrace_data_mem locs a p h
        · simp at h
      · split at h
        · rcases List.mem_append.mp h with h | h
          · exact dirTrace_data_mem locs a p h
          · simp at h
        · split at h
          · rcases List.mem_append.mp h with h | h
            · exact dirTrace_data_mem locs a p h
            · simp at h
          · rcases List.mem_append.mp h with h | h
            · exact dirTrace_data_mem locs a p h
            · simp at h

/-- A data-dir preparation event in the whole `Start` trace forces both a
non-empty data-dir override and the `ensureDataDirExists` flag. -/
theorem mem_run_data_ensure (w : World) (st : LibState) (a : StartArgs)
    (p : String)
    (h : Event.ensureDirCall BaseDirRole.data p
      ∈ (libst_run_syncthing w st a).2.2) :
    (a.dataDir != "" && a.ensureDataDirExists) = true := by
  unfold libst_run_syncthing at h
  split at h
  · simp at h
  · unfold runIdle at h
    split at h
    · exact absurd h (ensureDirCall_not_mem_guiEnvEvents a _ p)
    · rename_i rc hrc
      split at h
      · rcases List.mem_append.mp h with h | h
        · exact absurd h (ensureDirCall_not_mem_guiEnvEvents a _ p)
        · exact absurd h (resolve_ok_no_ensureDirCall w _ _ _ rc hrc _ p)
      · rename_i rd hrd
        rcases List.mem_append.mp h with h | h
        · rcases List.mem_append.mp h with h | h
          · rcases List.mem_append.mp h with h | h
            · exact absurd h (ensureDirCall_not_mem_guiEnvEvents a _ p)
            · exact absurd h (resolve_ok_no_ensureDirCall w _ _ _ rc hrc _ p)
          · exact absurd h (resolve_ok_no_ensureDirCall w _ _ _ rd hrd _ p)
        · exact bootstrap_ensureDirCall_data_mem w _ a p h

/-- **C10.** With an empty `dataDir` argument the data/database base
directory is never prepared — even when `ensureDataDirExists` is true and a
default data base dir exists; a data-dir preparation only ever happens when a
non-empty `dataDir` override is supplied together with the flag. -/
theorem data_dir_prepared_only_with_override (w : World) (st : LibState)
    (a : StartArgs) (p : String) :
    (a.dataDir = "" →
      Event.ensureDirCall BaseDirRole.data p
        ∉ (libst_run_syncthing w st a).2.2)
    ∧ (Event.ensureDirCall BaseDirRole.data p
          ∈ (libst_run_syncthing w st a).2.2 →
        a.dataDir ≠ "" ∧ a.ensureDataDirExists = true) := by
  constructor
  · intro hd hmem
    have hk := mem_run_data_ensure w st a p hmem
    rw [hd] at hk
    simp at hk
  · intro hmem
    have hk := (Bool.and_eq_true _ _).mp (mem_run_data_ensure w st a p hmem)
    refine ⟨?_, hk.2⟩
    intro hd
    rw [hd] at hk
    simp at hk

/-- Witness for `data_dir_prepared_only_with_override`. -/
theorem data_dir_prepared_only_with_override_witness :
    Event.ensureDirCall BaseDirRole.data "/default/data"
      ∉ (libst_run_syncthing allOkWorld idleState ensureDataNoDirArgs).2.2
    ∧ (ensureDataWithDirArgs.dataDir ≠ ""
        ∧ ensureDataWithDirArgs.ensureDataDirExists = true) :=
  ⟨(data_dir_prepared_only_with_override allOkWorld idleState
      ensureDataNoDirArgs "/default/data").1 rfl,
   (data_dir_prepared_only_with_override allOkWorld idleState
      ensureDataWithDirArgs "/d").2 (by
        have htr : (libst_run_syncthing allOkWorld idleState
            ensureDataWithDirArgs).2.2
            = [Event.setBaseDir BaseDirRole.data "/d",
               Event.ensureDirCall BaseDirRole.data "/d",
               Event.loadCert, Event.loadConfig, Event.openDB,
               Event.appRun] := rfl
        rw [htr]
        simp)⟩

/-- **C8 counterexample.** A `Start` call returning via the already-running
no-op leaves the Instance Handle non-nil (the other run still owns it), so
the claim that `theApp` is nil whenever `Start` returns — including the
no-op return — is false. -/
theorem start_noop_retains_handle :
    (libst_run_syncthing allOkWorld runningState defaultArgs).1 = 0
    ∧ (libst_run_syncthing allOkWorld runningState defaultArgs).2.1.theApp
        ≠ none :=
  ⟨rfl, fun h => Option.noConfusion h⟩

/-- **C8 (amended).** A `Start` call entered with no live handle returns
with `theApp` nil, ready for a retried `Start`; the already-running no-op
instead returns 0 leaving the existing non-nil handle unchanged; and
whenever the full run happened (`appRun` in the trace) the returned code is
the instance's own termination exit code. -/
theorem start_returns_to_idle (w : World) (st : LibState) (a : StartArgs) :
    (st.theApp = none → (libst_run_syncthing w st a).2.1.theApp = none)
    ∧ (∀ app, st.theApp = some app →
        libst_run_syncthing w st a = (0, st, []) ∧ st.theApp ≠ none)
    ∧ (Event.appRun ∈ (libst_run_syncthing w st a).2.2 →
        (libst_run_syncthing w st a).1 = w.appWaitCode) := by
  refine ⟨?_, ?_, ?_⟩
  · intro h
    rw [run_preserves_theApp w st a, h]
  · intro app h
    constructor
    · unfold libst_run_syncthing
      rw [h]
    · rw [h]
      exact fun hc => Option.noConfusion hc
  · intro hm
    rcases hA : st.theApp with _ | app
    · rcases hBL : bootLocs w st a with _ | locs2
      · exact absurd hm ((run_aborts_path w st a hA hBL).2.1 Event.appRun rfl)
      · obtain ⟨hcode, hmemiff, _⟩ :=
          run_reaches_bootstrap w st a hA locs2 hBL
        have hmB : Event.appRun ∈ (bootstrap w locs2 a).2 :=
          (hmemiff Event.appRun rfl).mp hm
        rw [hcode]
        rcases bootstrap_cases w locs2 a with
            hb | hb | ⟨_, hb⟩ | ⟨_, _, hb⟩ | ⟨_, _, _, hb⟩ | ⟨_, _, _, hb⟩ <;>
          rw [hb] at hmB ⊢
        · simp at hmB
        · exfalso
          rcases List.mem_append.mp hmB with hmB | hmB
          · exact Event.noConfusion
              (mem_ensureConfigTrace_shape locs2 a Event.appRun hmB)
          · simp at hmB
        · exfalso
          rcases List.mem_append.mp hmB with hmB | hmB
          · exact not_mem_dirTrace locs2 a Event.appRun
              (fun r p hrp => Event.noConfusion hrp) hmB
          · simp at hmB
        · exfalso
          rcases List.mem_append.mp hmB with hmB | hmB
          · exact not_mem_dirTrace locs2 a Event.appRun
              (fun r p hrp => Event.noConfusion hrp) hmB
          · simp at hmB
        · exfalso
          rcases List.mem_append.mp hmB with hmB | hmB
          · exact not_mem_dirTrace locs2 a Event.appRun
              (fun r p hrp => Event.noConfusion hrp) hmB
          · simp at hmB
    · exfalso
      have h0 : libst_run_syncthing w st a = (0, st, []) := by
        unfold libst_run_syncthing
        rw [hA]
      rw [h0] at hm
      simp at hm

/-- Witness for `start_returns_to_idle`. -/
theorem start_returns_to_idle_witness :
    (libst_run_syncthing allOkWorld idleState defaultArgs).2.1.theApp = none
    ∧ libst_run_syncthing allOkWorld runningState defaultArgs
        = (0, runningState, [])
    ∧ runningState.theApp ≠ none
    ∧ (libst_run_syncthing allOkWorld idleState defaultArgs).1
        = allOkWorld.appWaitCode :=
  ⟨(start_returns_to_idle allOkWorld idleState defaultArgs).1 rfl,
   ((start_returns_to_idle allOkWorld runningState defaultArgs).2.1 ()
      rfl).1,
   ((start_returns_to_idle allOkWorld runningState defaultArgs).2.1 ()
      rfl).2,
   (start_returns_to_idle allOkWorld idleState defaultArgs).2.2 (by
      have htr : (libst_run_syncthing allOkWorld idleState defaultArgs).2.2
          = [Event.loadCert, Event.loadConfig, Event.openDB, Event.appRun] :=
        rfl
      rw [htr]
      simp)⟩

/-- **C1.** In every invocation of `Start` the bootstrap stages occur in the
fixed order certificate-load, configuration-load, database-open (the stage
events of the trace form a prefix of that sequence), and the first failing
stage aborts the sequence with its stage-specific exit code — 1 for a
credential error, 2 for a configuration error, 4 for a database/storage
error — without executing any later stage or the run. -/
theorem bootstrap_stages_fail_fast (w : World) (st : LibState)
    (a : StartArgs) :
    stageEvents (libst_run_syncthing w st a).2.2
        <+: [Event.loadCert, Event.loadConfig, Event.openDB]
    ∧ (w.certErr = true →
        Event.loadCert ∈ (libst_run_syncthing w st a).2.2 →
        (libst_run_syncthing w st a).1 = 1
        ∧ Event.loadConfig ∉ (libst_run_syncthing w st a).2.2
        ∧ Event.openDB ∉ (libst_run_syncthing w st a).2.2
        ∧ Event.appRun ∉ (libst_run_syncthing w st a).2.2)
    ∧ (w.cfgErr = true →
        Event.loadConfig ∈ (libst_run_syncthing w st a).2.2 →
        (libst_run_syncthing w st a).1 = 2
        ∧ Event.openDB ∉ (libst_run_syncthing w st a).2.2
        ∧ Event.appRun ∉ (libst_run_syncthing w st a).2.2)
    ∧ (w.dbErr = true →
        Event.openDB ∈ (libst_run_syncthing w st a).2.2 →
        (libst_run_syncthing w st a).1 = 4
        ∧ Event.appRun ∉ (libst_run_syncthing w st a).2.2) := by
  rcases hA : st.theApp with _ | app
  · rcases hBL : bootLocs w st a with _ | locs2
    · obtain ⟨hc3, hnm, hse⟩ := run_aborts_path w st a hA hBL
      refine ⟨?_, ?_, ?_, ?_⟩
      · rw [hse]
        exact List.nil_prefix
      · intro _ hm
        exact absurd hm (hnm Event.loadCert rfl)
      · intro _ hm
        exact absurd hm (hnm Event.loadConfig rfl)
      · intro _ hm
        exact absurd hm (hnm Event.openDB rfl)
    · obtain ⟨hcode, hmem, hse⟩ := run_reaches_bootstrap w st a hA locs2 hBL
      obtain ⟨hpre, hcert, hcfg, hdb⟩ := bootstrap_stage_facts w locs2 a
      refine ⟨?_, ?_, ?_, ?_⟩
      · rw [hse]
        exact hpre
      · intro hc hm
        obtain ⟨h1, h2, h3, h4⟩ := hcert hc ((hmem Event.loadCert rfl).mp hm)
        exact ⟨by rw [hcode]; exact h1,
               fun hmm => h2 ((hmem Event.loadConfig rfl).mp hmm),
               fun hmm => h3 ((hmem Event.openDB rfl).mp hmm),
               fun hmm => h4 ((hmem Event.appRun rfl).mp hmm)⟩
      · intro hc hm
        obtain ⟨h1, h2, h3⟩ := hcfg hc ((hmem Event.loadConfig rfl).mp hm)
        exact ⟨by rw [hcode]; exact h1,
               fun hmm => h2 ((hmem Event.openDB rfl).mp hmm),
               fun hmm => h3 ((hmem Event.appRun rfl).mp hmm)⟩
      · intro hc hm
        obtain ⟨h1, h2⟩ := hdb hc ((hmem Event.openDB rfl).mp hm)
        exact ⟨by rw [hcode]; exact h1,
               fun hmm => h2 ((hmem Event.appRun rfl).mp hmm)⟩
  · have h0 : libst_run_syncthing w st a = (0, st, []) := by
      unfold libst_run_syncthing
      rw [hA]
    rw [h0]
    refine ⟨List.nil_prefix, ?_, ?_, ?_⟩
    · intro _ hm
      simp at hm
    · intro _ hm
      simp at hm
    · intro _ hm
      simp at hm

/-- Witness for `bootstrap_stages_fail_fast`. -/
theorem bootstrap_stages_fail_fast_witness :
    ((libst_run_syncthing certFailWorld idleState defaultArgs).1 = 1
      ∧ Event.loadConfig
          ∉ (libst_run_syncthing certFailWorld idleState defaultArgs).2.2
      ∧ Event.openDB
          ∉ (libst_run_syncthing certFailWorld idleState defaultArgs).2.2
      ∧ Event.appRun
          ∉ (libst_run_syncthing certFailWorld idleState defaultArgs).2.2)
    ∧ ((libst_run_syncthing cfgFailWorld idleState defaultArgs).1 = 2
      ∧ Event.openDB
          ∉ (libst_run_syncthing cfgFailWorld idleState defaultArgs).2.2
      ∧ Event.appRun
          ∉ (libst_run_syncthing cfgFailWorld idleState defaultArgs).2.2)
    ∧ ((libst_run_syncthing dbFailWorld idleState defaultArgs).1 = 4
      ∧ Event.appRun
          ∉ (libst_run_syncthing dbFailWorld idleState defaultArgs).2.2) :=
  ⟨(bootstrap_stages_fail_fast certFailWorld idleState defaultArgs).2.1 rfl
      (by
        have htr : (libst_run_syncthing certFailWorld idleState
            defaultArgs).2.2 = [Event.loadCert] := rfl
        rw [htr]
        simp),
   (bootstrap_stages_fail_fast cfgFailWorld idleState defaultArgs).2.2.1 rfl
      (by
        have htr : (libst_run_syncthing cfgFailWorld idleState
            defaultArgs).2.2 = [Event.loadCert, Event.loadConfig] := rfl
        rw [htr]
        simp),
   (bootstrap_stages_fail_fast dbFailWorld idleState defaultArgs).2.2.2 rfl
      (by
        have htr : (libst_run_syncthing dbFailWorld idleState
            defaultArgs).2.2
            = [Event.loadCert, Event.loadConfig, Event.openDB] := rfl
        rw [htr]
        simp)⟩

/-- **C5 counterexample.** With the working directory unavailable, an
absolute `configDir` and a relative `dataDir`, `Start` registers the config
location and only then fails to resolve the data dir: it returns exit code 3
with the config base dir already mutated, so "returns exit code 3 without
mutating any global location" is false as stated. -/
theorem path_error_after_location_mutation :
    (libst_run_syncthing noCwdWorld idleState bothDirsArgs).1 = 3
    ∧ (libst_run_syncthing noCwdWorld idleState
        bothDirsArgs).2.1.locs.configBase = "/c"
    ∧ idleState.locs.configBase ≠ "/c" :=
  ⟨rfl, rfl, by decide⟩

/-- **C5 (amended).** Per-role behaviour of the directory blocks: an empty
argument leaves that role's location untouched; every registration event
carries the path resolved from the argument (the argument itself when
absolute, otherwise its resolution against the working directory) and that
path is the role's final location; when a role's block fails (resolution or
registration), `Start` returns exit code 3 without mutating **that role's**
location — locations registered for earlier roles in the same call remain
registered; and a non-failing role with a non-empty argument does get its
resolved path registered. -/
theorem path_resolution_per_role (w : World) (st : LibState) (a : StartArgs) :
    (a.configDir = "" →
      (libst_run_syncthing w st a).2.1.locs.configBase = st.locs.configBase)
    ∧ (a.dataDir = "" →
      (libst_run_syncthing w st a).2.1.locs.dataBase = st.locs.dataBase)
    ∧ (∀ p, Event.setBaseDir BaseDirRole.config p
          ∈ (libst_run_syncthing w st a).2.2 →
        (if isAbsPath a.configDir then some a.configDir
         else absPath w a.configDir) = some p
        ∧ (libst_run_syncthing w st a).2.1.locs.configBase = p)
    ∧ (∀ p, Event.setBaseDir BaseDirRole.data p
          ∈ (libst_run_syncthing w st a).2.2 →
        (if isAbsPath a.dataDir then some a.dataDir
         else absPath w a.dataDir) = some p
        ∧ (libst_run_syncthing w st a).2.1.locs.dataBase = p)
    ∧ (st.theApp = none →
        roleFails w BaseDirRole.config a.configDir = true →
        (libst_run_syncthing w st a).1 = 3
        ∧ (libst_run_syncthing w st a).2.1.locs = st.locs)
    ∧ (st.theApp = none →
        roleFails w BaseDirRole.config a.configDir = false →
        roleFails w BaseDirRole.data a.dataDir = true →
        (libst_run_syncthing w st a).1 = 3
        ∧ (libst_run_syncthing w st a).2.1.locs.dataBase
            = st.locs.dataBase)
    ∧ (st.theApp = none → a.configDir ≠ "" →
        roleFails w BaseDirRole.config a.configDir = false →
        ∃ p, (if isAbsPath a.configDir then some a.configDir
              else absPath w a.configDir) = some p
          ∧ Event.setBaseDir BaseDirRole.config p
              ∈ (libst_run_syncthing w st a).2.2
          ∧ (libst_run_syncthing w st a).2.1.locs.configBase = p)
    ∧ (st.theApp = none → a.dataDir ≠ "" →
        roleFails w BaseDirRole.config a.configDir = false →
        roleFails w BaseDirRole.data a.dataDir = false →
        ∃ p, (if isAbsPath a.dataDir then some a.dataDir
              else absPath w a.dataDir) = some p
          ∧ Event.setBaseDir BaseDirRole.data p
              ∈ (libst_run_syncthing w st a).2.2
          ∧ (libst_run_syncthing w st a).2.1.locs.dataBase = p) := by
  rcases hA : st.theApp with _ | app
  · rw [run_eq_idle w st a hA]
    rcases runIdle_eq_cases w st a with
        ⟨c, hC, hEq⟩ | ⟨rc, c, hC, hD, hEq⟩ | ⟨rc, rd, hC, hD, hEq⟩
    · rw [hEq]
      have hrf : roleFails w BaseDirRole.config a.configDir = true := by
        rcases Bool.eq_false_or_eq_true
            (roleFails w BaseDirRole.config a.configDir) with hr | hr
        · exact hr
        · obtain ⟨pr, hok⟩ :=
            resolve_roleFails_false w st.locs BaseDirRole.config a.configDir hr
          rw [hC] at hok
          exact Except.noConfusion hok
      have hc3 : c = 3 := by
        have he :=
          resolve_roleFails_true w st.locs BaseDirRole.config a.configDir hrf
        rw [hC] at he
        exact Except.error.inj he
      refine ⟨?_, ?_, ?_, ?_, ?_, ?_, ?_, ?_⟩
      · intro _
        rfl
      · intro _
        rfl
      · intro p hm
        obtain ⟨n, v, he⟩ := mem_guiEnvEvents_setEnv a _ hm
        exact Event.noConfusion he
      · intro p hm
        obtain ⟨n, v, he⟩ := mem_guiEnvEvents_setEnv a _ hm
        exact Event.noConfusion he
      · intro _ _
        exact ⟨hc3, rfl⟩
      · intro _ hrf0 _
        exact Bool.noConfusion (hrf0.symm.trans hrf)
      · intro _ _ hrf0
        exact Bool.noConfusion (hrf0.symm.trans hrf)
      · intro _ _ hrf0 _
        exact Bool.noConfusion (hrf0.symm.trans hrf)
    · rw [hEq]
      have hrfD : roleFails w BaseDirRole.data a.dataDir = true := by
        rcases Bool.eq_false_or_eq_true
            (roleFails w BaseDirRole.data a.dataDir) with hr | hr
        · exact hr
        · obtain ⟨pr, hok⟩ :=
            resolve_roleFails_false w rc.1 BaseDirRole.data a.dataDir hr
          rw [hD] at hok
          exact Except.noConfusion hok
      have hrfC : roleFails w BaseDirRole.config a.configDir = false := by
        rcases Bool.eq_false_or_eq_true
            (roleFails w BaseDirRole.config a.configDir) with hr | hr
        · have he :=
            resolve_roleFails_true w st.locs BaseDirRole.config a.configDir hr
          rw [hC] at he
          exact Except.noConfusion he
        · exact hr
      have hc3 : c = 3 := by
        have he :=
          resolve_roleFails_true w rc.1 BaseDirRole.data a.dataDir hrfD
        rw [hD] at he
        exact Except.error.inj he
      have hbase :=
        resolve_ok_base w st.locs BaseDirRole.config a.configDir rc hC
      refine ⟨?_, ?_, ?_, ?_, ?_, ?_, ?_, ?_⟩
      · intro hd
        have hC0 : resolveAndSetBaseDir w st.locs BaseDirRole.config
            a.configDir = Except.ok (st.locs, []) := by
          unfold resolveAndSetBaseDir
          rw [if_pos hd]
        have hrc : rc = (st.locs, []) := by
          rw [hC] at hC0
          exact Except.ok.inj hC0
        show rc.1.configBase = st.locs.configBase
        rw [hrc]
      · intro hd
        exfalso
        have hD0 : resolveAndSetBaseDir w rc.1 BaseDirRole.data a.dataDir
            = Except.ok (rc.1, []) := by
          unfold resolveAndSetBaseDir
          rw [if_pos hd]
        rw [hD] at hD0
        exact Except.noConfusion hD0
      · intro p hm
        rcases List.mem_append.mp hm with hm | hm
        · obtain ⟨n, v, he⟩ := mem_guiEnvEvents_setEnv a _ hm
          exact Event.noConfusion he
        · rcases hbase with ⟨hd, h1, h2⟩ | ⟨q, hq, h1, h2⟩
          · rw [h2] at hm
            simp at hm
          · rw [h2] at hm
            simp at hm
            subst hm
            refine ⟨hq, ?_⟩
            show rc.1.configBase = p
            rw [h1]
            rfl
      · intro p hm
        rcases List.mem_append.mp hm with hm | hm
        · obtain ⟨n, v, he⟩ := mem_guiEnvEvents_setEnv a _ hm
          exact Event.noConfusion he
        · rcases hbase with ⟨hd, h1, h2⟩ | ⟨q, hq, h1, h2⟩
          · rw [h2] at hm
            simp at hm
          · rw [h2] at hm
            simp at hm
      · intro _ hrf0
        exact Bool.noConfusion (hrfC.symm.trans hrf0)
      · intro _ _ _
        refine ⟨hc3, ?_⟩
        show rc.1.dataBase = st.locs.dataBase
        rcases hbase with ⟨hd, h1, h2⟩ | ⟨q, hq, h1, h2⟩
        · rw [h1]
        · rw [h1]
          rfl
      · intro _ hne hrf0
        rcases hbase with ⟨hd, h1, h2⟩ | ⟨q, hq, h1, h2⟩
        · exact absurd hd hne
        · refine ⟨q, hq, ?_, ?_⟩
          · show Event.setBaseDir BaseDirRole.config q
              ∈ guiEnvEvents a ++ rc.2
            rw [h2]
            simp
          · show rc.1.configBase = q
            rw [h1]
            rfl
      · intro _ _ _ hrf0
        exact Bool.noConfusion (hrf0.symm.trans hrfD)
    · rw [hEq]
      have hrfC : roleFails w BaseDirRole.config a.configDir = false := by
        rcases Bool.eq_false_or_eq_true
            (roleFails w BaseDirRole.config a.configDir) with hr | hr
        · have he :=
            resolve_roleFails_true w st.locs BaseDirRole.config a.configDir hr
          rw [hC] at he
          exact Except.noConfusion he
        · exact hr
      have hrfD : roleFails w BaseDirRole.data a.dataDir = false := by
        rcases Bool.eq_false_or_eq_true
            (roleFails w BaseDirRole.data a.dataDir) with hr | hr
        · have he :=
            resolve_roleFails_true w rc.1 BaseDirRole.data a.dataDir hr
          rw [hD] at he
          exact Except.noConfusion he
        · exact hr
      have hbaseC :=
        resolve_ok_base w st.locs BaseDirRole.config a.configDir rc hC
      have hbaseD :=
        resolve_ok_base w rc.1 BaseDirRole.data a.dataDir rd hD
      have hcfgPreserve : rd.1.configBase = rc.1.configBase := by
        rcases hbaseD with ⟨_, h1, _⟩ | ⟨q, _, h1, _⟩
        · rw [h1]
        · rw [h1]
          rfl
      refine ⟨?_, ?_, ?_, ?_, ?_, ?_, ?_, ?_⟩
      · intro hd
        have hC0 : resolveAndSetBaseDir w st.locs BaseDirRole.config
            a.configDir = Except.ok (st.locs, []) := by
          unfold resolveAndSetBaseDir
          rw [if_pos hd]
        have hrc : rc = (st.locs, []) := by
          rw [hC] at hC0
          exact Except.ok.inj hC0
        show rd.1.configBase = st.locs.configBase
        rw [hcfgPreserve, hrc]
      · intro hd
        have hD0 : resolveAndSetBaseDir w rc.1 BaseDirRole.data a.dataDir
            = Except.ok (rc.1, []) := by
          unfold resolveAndSetBaseDir
          rw [if_pos hd]
        have hrd : rd = (rc.1, []) := by
          rw [hD] at hD0
          exact Except.ok.inj hD0
        show rd.1.dataBase = st.locs.dataBase
        rw [hrd]
        rcases hbaseC with ⟨_, h1, _⟩ | ⟨q, _, h1, _⟩
        · rw [h1]
        · rw [h1]
          rfl
      · intro p hm
        rcases List.mem_append.mp hm with hm | hm
        · rcases List.mem_append.mp hm with hm | hm
          · rcases List.mem_append.mp hm with hm | hm
            · obtain ⟨n, v, he⟩ := mem_guiEnvEvents_setEnv a _ hm
              exact Event.noConfusion he
            · rcases hbaseC with ⟨hd, h1, h2⟩ | ⟨q, hq, h1, h2⟩
              · rw [h2] at hm
                simp at hm
              · rw [h2] at hm
                simp at hm
                subst hm
                refine ⟨hq, ?_⟩
                show rd.1.configBase = p
                rw [hcfgPreserve, h1]
                rfl
          · rcases hbaseD with ⟨hd, h1, h2⟩ | ⟨q, hq, h1, h2⟩
            · rw [h2] at hm
              simp at hm
            · rw [h2] at hm
              simp at hm
        · exact absurd hm (setBaseDir_not_mem_bootstrap w rd.1 a _ _)
      · intro p hm
        rcases List.mem_append.mp hm with hm | hm
        · rcases List.mem_append.mp hm with hm | hm
          · rcases List.mem_append.mp hm with hm | hm
            · obtain ⟨n, v, he⟩ := mem_guiEnvEvents_setEnv a _ hm
              exact Event.noConfusion he
            · rcases hbaseC with ⟨hd, h1, h2⟩ | ⟨q, hq, h1, h2⟩
              · rw [h2] at hm
                simp at hm
              · rw [h2] at hm
                simp at hm
          · rcases hbaseD with ⟨hd, h1, h2⟩ | ⟨q, hq, h1, h2⟩
            · rw [h2] at hm
              simp at hm
            · rw [h2] at hm
              simp at hm
              subst hm
              refine ⟨hq, ?_⟩
              show rd.1.dataBase = p
              rw [h1]
              rfl
        · exact absurd hm (setBaseDir_not_mem_bootstrap w rd.1 a _ _)
      · intro _ hrf0
        exact Bool.noConfusion (hrfC.symm.trans hrf0)
      · intro _ _ hrf0
        exact Bool.noConfusion (hrfD.symm.trans hrf0)
      · intro _ hne hrf0
        rcases hbaseC with ⟨hd, h1, h2⟩ | ⟨q, hq, h1, h2⟩
        · exact absurd hd hne
        · refine ⟨q, hq, ?_, ?_⟩
          · show Event.setBaseDir BaseDirRole.config q
              ∈ guiEnvEvents a ++ rc.2 ++ rd.2 ++ (bootstrap w rd.1 a).2
            refine List.mem_append.mpr (Or.inl ?_)
            refine List.mem_append.mpr (Or.inl ?_)
            refine List.mem_append.mpr (Or.inr ?_)
            rw [h2]
            simp
          · show rd.1.configBase = q
            rw [hcfgPreserve, h1]
            rfl
      · intro _ hne _ hrf0
        rcases hbaseD with ⟨hd, h1, h2⟩ | ⟨q, hq, h1, h2⟩
        · exact absurd hd hne
        · refine ⟨q, hq, ?_, ?_⟩
          · show Event.setBaseDir BaseDirRole.data q
              ∈ guiEnvEvents a ++ rc.2 ++ rd.2 ++ (bootstrap w rd.1 a).2
            refine List.mem_append.mpr (Or.inl ?_)
            refine List.mem_append.mpr (Or.inr ?_)
            rw [h2]
            simp
          · show rd.1.dataBase = q
            rw [h1]
            rfl
  · have h0 : libst_run_syncthing w st a = (0, st, []) := by
      unfold libst_run_syncthing
      rw [hA]
    rw [h0]
    refine ⟨fun _ => rfl, fun _ => rfl, ?_, ?_, ?_, ?_, ?_, ?_⟩
    · intro p hm
      simp at hm
    · intro p hm
      simp at hm
    · intro h _
      exact Option.noConfusion h
    · intro h _ _
      exact Option.noConfusion h
    · intro h _ _
      exact Option.noConfusion h
    · intro h _ _ _
      exact Option.noConfusion h

/-- Witness for `path_resolution_per_role`. -/
theorem path_resolution_per_role_witness :
    (libst_run_syncthing allOkWorld idleState
        ensureDataWithDirArgs).2.1.locs.configBase
      = idleState.locs.configBase
    ∧ (libst_run_syncthing allOkWorld idleState guiArgs).2.1.locs.dataBase
        = idleState.locs.dataBase
    ∧ ((if isAbsPath bothDirsArgs.configDir then some bothDirsArgs.configDir
        else absPath allOkWorld bothDirsArgs.configDir) = some "/c"
      ∧ (libst_run_syncthing allOkWorld idleState
          bothDirsArgs).2.1.locs.configBase = "/c")
    ∧ ((if isAbsPath bothDirsArgs.dataDir then some bothDirsArgs.dataDir
        else absPath allOkWorld bothDirsArgs.dataDir) = some "/cwd/d"
      ∧ (libst_run_syncthing allOkWorld idleState
          bothDirsArgs).2.1.locs.dataBase = "/cwd/d")
    ∧ ((libst_run_syncthing noCwdWorld idleState relConfigArgs).1 = 3
      ∧ (libst_run_syncthing noCwdWorld idleState relConfigArgs).2.1.locs
          = idleState.locs)
    ∧ ((libst_run_syncthing noCwdWorld idleState bothDirsArgs).1 = 3
      ∧ (libst_run_syncthing noCwdWorld idleState
          bothDirsArgs).2.1.locs.dataBase = idleState.locs.dataBase)
    ∧ (∃ p, (if isAbsPath bothDirsArgs.configDir
          then some bothDirsArgs.configDir
          else absPath allOkWorld bothDirsArgs.configDir) = some p
        ∧ Event.setBaseDir BaseDirRole.config p
            ∈ (libst_run_syncthing allOkWorld idleState bothDirsArgs).2.2
        ∧ (libst_run_syncthing allOkWorld idleState
            bothDirsArgs).2.1.locs.configBase = p)
    ∧ (∃ p, (if isAbsPath bothDirsArgs.dataDir
          then some bothDirsArgs.dataDir
          else absPath allOkWorld bothDirsArgs.dataDir) = some p
        ∧ Event.setBaseDir BaseDirRole.data p
            ∈ (libst_run_syncthing allOkWorld idleState bothDirsArgs).2.2
        ∧ (libst_run_syncthing allOkWorld idleState
            bothDirsArgs).2.1.locs.dataBase = p) :=
  ⟨(path_resolution_per_role allOkWorld idleState ensureDataWithDirArgs).1
      rfl,
   (path_resolution_per_role allOkWorld idleState guiArgs).2.1 rfl,
   (path_resolution_per_role allOkWorld idleState bothDirsArgs).2.2.1 "/c"
      (by
        have htr : (libst_run_syncthing allOkWorld idleState
            bothDirsArgs).2.2
            = [Event.setBaseDir BaseDirRole.config "/c",
               Event.setBaseDir BaseDirRole.data "/cwd/d",
               Event.loadCert, Event.loadConfig, Event.openDB,
               Event.appRun] := rfl
        rw [htr]
        simp),
   (path_resolution_per_role allOkWorld idleState bothDirsArgs).2.2.2.1
      "/cwd/d"
      (by
        have htr : (libst_run_syncthing allOkWorld idleState
            bothDirsArgs).2.2
            = [Event.setBaseDir BaseDirRole.config "/c",
               Event.setBaseDir BaseDirRole.data "/cwd/d",
               Event.loadCert, Event.loadConfig, Event.openDB,
               Event.appRun] := rfl
        rw [htr]
        simp),
   (path_resolution_per_role noCwdWorld idleState relConfigArgs).2.2.2.2.1
      rfl rfl,
   (path_resolution_per_role noCwdWorld idleState
      bothDirsArgs).2.2.2.2.2.1 rfl rfl rfl,
   (path_resolution_per_role allOkWorld idleState
      bothDirsArgs).2.2.2.2.2.2.1 rfl (by decide) rfl,
   (path_resolution_per_role allOkWorld idleState
      bothDirsArgs).2.2.2.2.2.2.2 rfl (by decide) rfl rfl⟩

end CBindings
